import Mathlib

/-!
Verification development for the backend-boti semantic-search subsystem.

The Python source is shallowly embedded:
* Python machine floats are modelled exactly as decimal scaled integers
  `PyFloat` (value `m * 10 ^ e`); every finite IEEE-754 double is such a
  number, and Python's json layer round-trips them exactly.
* Python values appearing in the modelled dictionaries are `Py`
  (numbers, strings, None, float lists).
* Dictionaries (pydantic model dumps, Supabase rows) are association
  lists `Row` keyed by field name; entity construction `Model(**data)`
  is modelled as the field dictionary itself.
* External collaborators (the OpenAI HTTP endpoint, the Supabase
  table/RPC client) are oracle functions returning `Except PyExc`;
  a raised Python exception is the `Except.error` case.
* Each modelled operation also returns a trace of the outbound calls it
  issued (embedding-provider calls, inserts, updates, RPC calls), making
  effect claims (call counts, no-write guarantees) provable.
-/

/-- A Python float modelled exactly: the value `m * 10 ^ e`.  Every finite
IEEE-754 binary64 number is exactly such a decimal scaled integer. -/
structure PyFloat where
  m : Int
  e : Int
deriving DecidableEq, Repr

/-- Rational value of a modelled float. -/
def PyFloat.toRat (x : PyFloat) : ℚ :=
  if 0 ≤ x.e then (x.m : ℚ) * (10 : ℚ) ^ x.e.toNat
  else (x.m : ℚ) / (10 : ℚ) ^ (-x.e).toNat

/-- An embedding vector: a list of floats, as in the Python source. -/
abbrev Vec := List PyFloat

/-- A Python value as it appears in the dictionaries handled by the code:
numbers, strings, None, and lists of floats (embedding vectors). -/
inductive Py where
  | num (x : PyFloat)
  | str (s : String)
  | null
  | vec (xs : Vec)
deriving DecidableEq, Repr

/-- A Python dict keyed by strings (pydantic model dump / Supabase row),
in insertion order. -/
abbrev Row := List (String × Py)

/-- Python dict assignment `d[k] = v`: replace the value of an existing
key in place, else append the new key at the end. -/
def dictSet (d : Row) (k : String) (v : Py) : Row :=
  match d with
  | [] => [(k, v)]
  | (k0, v0) :: rest =>
      if k0 = k then (k0, v) :: rest else (k0, v0) :: dictSet rest k v

/-- A raised Python exception, by the classes the embedded code
distinguishes. -/
inductive PyExc where
  | connectError (msg : String)
  | valueError (msg : String)
  | indexError
  | exc (msg : String)
deriving DecidableEq, Repr

/- ### JSON codec (json.dumps / json.loads on lists of floats)

`json.dumps` on a list of floats produces the text
`[x1, x2, ..., xn]`; the modelled printer writes each float as
`<mantissa>e<exponent>` (a valid JSON number denoting the same value;
Python's shortest-repr formatting differs in spelling only).
`json.loads`, as used by `PgVector.process_result_value` to read a stored
vector column, is modelled by a character-level parser of that grammar. -/

/-- The character of a single decimal digit. -/
def digitChar (d : ℕ) : Char := Char.ofNat (48 + d)

/-- Numeric value of a digit character. -/
def digitToNat (c : Char) : ℕ := c.toNat - 48

/-- Little-endian base-10 digits, fuel-bounded so that the definition
evaluates by kernel reduction. -/
def natDigitsAux : ℕ → ℕ → List ℕ
  | 0, _ => []
  | fuel + 1, n => if n = 0 then [] else n % 10 :: natDigitsAux fuel (n / 10)

/-- Little-endian base-10 digits of a natural number. -/
def natDigits (n : ℕ) : List ℕ := natDigitsAux n n

/-- Decimal digits of a natural number, most significant first. -/
def printNat (n : ℕ) : List Char :=
  if n = 0 then [digitChar 0] else ((natDigits n).map digitChar).reverse

/-- Decimal digits of an integer, with a leading minus sign when
negative. -/
def printInt (i : Int) : List Char :=
  if i < 0 then Char.ofNat 45 :: printNat i.natAbs else printNat i.natAbs

/-- JSON number text of a modelled float: mantissa, `e`, exponent. -/
def printFloat (x : PyFloat) : List Char :=
  printInt x.m ++ Char.ofNat 101 :: printInt x.e

/-- Comma-space separated float literals, as json.dumps renders the items
of a list. -/
def printItems : Vec → List Char
  | [] => []
  | [x] => printFloat x
  | x :: y :: xs => printFloat x ++ Char.ofNat 44 :: Char.ofNat 32 :: printItems (y :: xs)

/-- json.dumps on a list of floats: the bracketed, comma-separated
number list. -/
def dumpsVec (v : Vec) : String :=
  ⟨Char.ofNat 91 :: (printItems v ++ [Char.ofNat 93])⟩

/-- Consume a maximal run of leading decimal digits, folding them onto an
accumulator. -/
def parseNatAux : List Char → ℕ → ℕ × List Char
  | [], acc => (acc, [])
  | c :: cs, acc =>
      if c.isDigit then parseNatAux cs (acc * 10 + digitToNat c) else (acc, c :: cs)

/-- Parse a natural number: at least one leading digit. -/
def parseNat (cs : List Char) : Option (ℕ × List Char) :=
  match cs with
  | [] => none
  | c :: _ => if c.isDigit then some (parseNatAux cs 0) else none

/-- Parse an integer: an optional minus sign then a natural number. -/
def parseInt (cs : List Char) : Option (Int × List Char) :=
  match cs with
  | [] => none
  | c :: cs0 =>
      if c = Char.ofNat 45 then
        (parseNat cs0).map (fun p => (-(p.1 : Int), p.2))
      else
        (parseNat (c :: cs0)).map (fun p => ((p.1 : Int), p.2))

/-- Parse one float literal `<int>e<int>`. -/
def parseFloat (cs : List Char) : Option (PyFloat × List Char) :=
  match parseInt cs with
  | none => none
  | some (m, rest) =>
      match rest with
      | [] => none
      | c :: rest2 =>
          if c = Char.ofNat 101 then
            match parseInt rest2 with
            | none => none
            | some (e, rest3) => some (⟨m, e⟩, rest3)
          else none

/-- Parse the items of a non-empty float list up to the closing bracket;
`fuel` bounds the number of items. -/
def parseItems : ℕ → List Char → Option (Vec × List Char)
  | 0, _ => none
  | fuel + 1, cs =>
      match parseFloat cs with
      | none => none
      | some (x, rest) =>
          match rest with
          | [] => none
          | c :: rest2 =>
              if c = Char.ofNat 93 then some ([x], rest2)
              else if c = Char.ofNat 44 then
                match rest2 with
                | [] => none
                | c2 :: rest3 =>
                    if c2 = Char.ofNat 32 then
                      (parseItems fuel rest3).map (fun p => (x :: p.1, p.2))
                    else none
              else none

/-- json.loads as used on a stored vector column: parse a JSON array of
numbers back to the list of floats, failing on any other input. -/
def loadsVec (s : String) : Option Vec :=
  match s.data with
  | [] => none
  | c :: cs =>
      if c = Char.ofNat 91 then
        match cs with
        | [] => none
        | c2 :: cs2 =>
            if c2 = Char.ofNat 93 then (if cs2 = [] then some [] else none)
            else
              match parseItems cs.length cs with
              | some (xs, []) => some xs
              | _ => none
      else none

/- ### PgVector (app/models/vector_types.py) -/

/-- PgVector.process_bind_param: a None vector stays None, otherwise the
list of floats is serialized with json.dumps for storage. -/
def process_bind_param (value : Option Vec) : Option String :=
  match value with
  | none => none
  | some v => some (dumpsVec v)

/-- PgVector.process_result_value: a None column stays None, otherwise
the stored JSON text is deserialized with json.loads; malformed stored
text raises. -/
def process_result_value (value : Option String) : Except PyExc (Option Vec) :=
  match value with
  | none => .ok none
  | some s =>
      match loadsVec s with
      | some v => .ok (some v)
      | none => .error (.exc "Expecting value")

/- ### EmbeddingService (app/services/embedding_service.py) -/

/-- One element of the `data` array of the OpenAI embeddings response;
only the `embedding` field is read by the code. -/
structure EmbedData where
  embedding : Vec
deriving DecidableEq, Repr

/-- The HTTP response to the embeddings POST: the status code, the raw
body text, and the `data` array of the parsed JSON body. -/
structure EmbedHttpResponse where
  status_code : Int
  text : String
  data : List EmbedData
deriving DecidableEq, Repr

/-- The outbound HTTP POST to the embeddings endpoint, as an oracle: the
request `input` value in, the response out, transport failures raised. -/
abbrev PostOracle := Py → Except PyExc EmbedHttpResponse

/-- EmbeddingService.get_embedding: POST the input text; a non-200
status raises with the response text; otherwise the embedding of the
first `data` element is returned (an empty `data` array raises the
index error of `result["data"][0]`). -/
def get_embedding (post : PostOracle) (text : Py) : Except PyExc Vec :=
  match post text with
  | .error e => .error e
  | .ok resp =>
      if resp.status_code ≠ 200 then
        .error (.exc ("Error getting embedding: " ++ resp.text))
      else
        match resp.data with
        | [] => .error .indexError
        | d :: _ => .ok d.embedding

/-- The loop of EmbeddingService.get_embeddings: embed each text in
order, appending to the accumulator; a raised exception propagates. -/
def getEmbeddingsLoop (post : PostOracle) : List String → List Vec → Except PyExc (List Vec)
  | [], acc => .ok acc
  | t :: ts, acc =>
      match get_embedding post (Py.str t) with
      | .error e => .error e
      | .ok v => getEmbeddingsLoop post ts (acc ++ [v])

/-- EmbeddingService.get_embeddings: sequentially embed a list of texts,
starting from the empty accumulator. -/
def get_embeddings (post : PostOracle) (texts : List String) : Except PyExc (List Vec) :=
  getEmbeddingsLoop post texts []

/-- Modelled from the spec: `embedMany` is semantically equivalent to
calling `embed` once per text, in order, sequentially, preserving input
order in the output sequence.  Stated as the literal recursion that
calls `get_embedding` once per text in input order. -/
def embedManySpec (post : PostOracle) : List String → Except PyExc (List Vec)
  | [] => .ok []
  | t :: ts =>
      match get_embedding post (Py.str t) with
      | .error e => .error e
      | .ok v =>
          match embedManySpec post ts with
          | .error e => .error e
          | .ok vs => .ok (v :: vs)

/- ### Supabase client oracles -/

/-- The result object of an executed Supabase query: its `data` rows. -/
structure PgResponse where
  data : List Row
deriving Repr

/-- Oracle for `client.table(t).insert(d).execute()`: the inserted
dictionary in, the response out, exceptions raised. -/
abbrev InsertOracle := Row → Except PyExc PgResponse

/-- Oracle for `client.table(t).update(d).eq("id", i).execute()`. -/
abbrev UpdateOracle := String → Row → Except PyExc PgResponse

/-- Oracle for `client.table(t).delete().eq("id", i).execute()`. -/
abbrev DeleteOracle := String → Except PyExc PgResponse

/-- The arguments of the similarity-search RPC call. -/
structure RpcArgs where
  query_embedding : String
  match_threshold : PyFloat
  match_count : Int
deriving DecidableEq, Repr

/-- Oracle for `client.rpc(name, args).execute()`. -/
abbrev RpcOracle := String → RpcArgs → Except PyExc PgResponse

/- ### Similarity search (CRUDDocument.search_by_vector,
CRUDVectorEmbedding.search_similar) -/

/-- The calls a similarity search issues: embedding-provider inputs and
RPC invocations, in order. -/
structure SearchTrace where
  embedCalls : List Py
  rpcCalls : List (String × RpcArgs)
deriving Repr

/-- Python float 0.0, the default similarity score. -/
def pyZero : PyFloat := ⟨0, 0⟩

/-- The similarity threshold 0.5 hardcoded in both search methods. -/
def matchThreshold : PyFloat := ⟨5, -1⟩

/-- The per-row processing of the search loop: the constructed entity is
the row with the `similarity` field stripped, paired with
`item.get("similarity", 0.0)`. -/
def matchRow (item : Row) : Row × Py :=
  (item.filter (fun kv => kv.1 ≠ "similarity"),
   (List.lookup "similarity" item).getD (Py.num pyZero))

/-- The common body of search_by_vector and search_similar: embed the
query text, serialize the vector with json.dumps, call the named RPC
with threshold 0.5 and the caller's limit; on an RPC exception return
the empty list, otherwise map each returned row to its
(entity, similarity) pair in the backend's order. -/
def vectorSearch (post : PostOracle) (rpc : RpcOracle) (rpcName : String)
    (query_text : String) (lim : Int) :
    Except PyExc (List (Row × Py)) × SearchTrace :=
  match get_embedding post (Py.str query_text) with
  | .error e => (.error e, ⟨[Py.str query_text], []⟩)
  | .ok qv =>
      let args : RpcArgs := ⟨dumpsVec qv, matchThreshold, lim⟩
      match rpc rpcName args with
      | .error _e => (.ok [], ⟨[Py.str query_text], [(rpcName, args)]⟩)
      | .ok resp =>
          (.ok (resp.data.map matchRow), ⟨[Py.str query_text], [(rpcName, args)]⟩)

/-- CRUDDocument.search_by_vector: the search against the
`match_documents` RPC. -/
def search_by_vector (post : PostOracle) (rpc : RpcOracle)
    (query_text : String) (lim : Int) :
    Except PyExc (List (Row × Py)) × SearchTrace :=
  vectorSearch post rpc "match_documents" query_text lim

/-- CRUDVectorEmbedding.search_similar: the search against the
`match_vector_embeddings` RPC. -/
def search_similar (post : PostOracle) (rpc : RpcOracle)
    (query_text : String) (lim : Int) :
    Except PyExc (List (Row × Py)) × SearchTrace :=
  vectorSearch post rpc "match_vector_embeddings" query_text lim

/- ### Document create/update with vector (app/crud/document.py) -/

/-- The calls a create path issues: embedding-provider inputs and insert
payloads, in order. -/
structure InsTrace where
  embedCalls : List Py
  inserts : List Row
deriving Repr

/-- The calls an update path issues: embedding-provider inputs and
(id, payload) update writes, in order. -/
structure UpdTrace where
  embedCalls : List Py
  updates : List (String × Row)
deriving Repr

/-- The DocumentCreate schema: its four fields. -/
structure DocumentCreate where
  agent_id : Py
  name : Py
  text_content : Py
  tool_id : Py
deriving DecidableEq, Repr

/-- DocumentCreate.model_dump(): all fields, in declaration order. -/
def DocumentCreate.dump (d : DocumentCreate) : Row :=
  [("agent_id", d.agent_id), ("name", d.name),
   ("text_content", d.text_content), ("tool_id", d.tool_id)]

/-- CRUDDocument.create_with_vector: embed the document's text first;
only on success is the insert issued, carrying the model dump with the
vector added; the first row of the response is the created document. -/
def create_with_vector (post : PostOracle) (ins : InsertOracle)
    (obj_in : DocumentCreate) : Except PyExc Row × InsTrace :=
  match get_embedding post obj_in.text_content with
  | .error e => (.error e, ⟨[obj_in.text_content], []⟩)
  | .ok vector =>
      let obj_dict := dictSet obj_in.dump "vector" (Py.vec vector)
      match ins obj_dict with
      | .error e => (.error e, ⟨[obj_in.text_content], [obj_dict]⟩)
      | .ok resp =>
          match resp.data with
          | [] => (.error .indexError, ⟨[obj_in.text_content], [obj_dict]⟩)
          | r :: _ => (.ok r, ⟨[obj_in.text_content], [obj_dict]⟩)

/-- CRUDDocument.update_with_vector.  The payload is
`obj_in.model_dump(exclude_unset=True)`: a dictionary holding exactly
the explicitly-set fields of the DocumentUpdate.  If it contains
`text_content`, the provider is called on that value and the resulting
vector is added to the payload; the update write is then issued. -/
def update_with_vector (post : PostOracle) (upd : UpdateOracle)
    (docId : String) (update_data : Row) : Except PyExc Row × UpdTrace :=
  match List.lookup "text_content" update_data with
  | some tv =>
      match get_embedding post tv with
      | .error e => (.error e, ⟨[tv], []⟩)
      | .ok vector =>
          let payload := dictSet update_data "vector" (Py.vec vector)
          match upd docId payload with
          | .error e => (.error e, ⟨[tv], [(docId, payload)]⟩)
          | .ok resp =>
              match resp.data with
              | [] => (.error .indexError, ⟨[tv], [(docId, payload)]⟩)
              | r :: _ => (.ok r, ⟨[tv], [(docId, payload)]⟩)
  | none =>
      match upd docId update_data with
      | .error e => (.error e, ⟨[], [(docId, update_data)]⟩)
      | .ok resp =>
          match resp.data with
          | [] => (.error .indexError, ⟨[], [(docId, update_data)]⟩)
          | r :: _ => (.ok r, ⟨[], [(docId, update_data)]⟩)

/- ### Vector embedding creation (app/crud/vector_embedding.py) -/

/-- The VectorEmbeddingCreate schema: the three owner references. -/
structure VectorEmbeddingCreate where
  message_id : Py
  document_id : Py
  agent_id : Py
deriving DecidableEq, Repr

/-- VectorEmbeddingCreate.model_dump(): all fields, in declaration
order. -/
def VectorEmbeddingCreate.dump (d : VectorEmbeddingCreate) : Row :=
  [("message_id", d.message_id), ("document_id", d.document_id),
   ("agent_id", d.agent_id)]

/-- CRUDVectorEmbedding.create_for_text: embed the given text first;
only on success is the insert issued, carrying the model dump with the
vector added. -/
def create_for_text (post : PostOracle) (ins : InsertOracle)
    (text : Py) (obj_in : VectorEmbeddingCreate) : Except PyExc Row × InsTrace :=
  match get_embedding post text with
  | .error e => (.error e, ⟨[text], []⟩)
  | .ok vector =>
      let obj_dict := dictSet obj_in.dump "vector" (Py.vec vector)
      match ins obj_dict with
      | .error e => (.error e, ⟨[text], [obj_dict]⟩)
      | .ok resp =>
          match resp.data with
          | [] => (.error .indexError, ⟨[text], [obj_dict]⟩)
          | r :: _ => (.ok r, ⟨[text], [obj_dict]⟩)

/- ### Generic CRUD update/remove (app/crud/base.py) -/

/-- CRUDBase.update: issue the update write; an httpx.ConnectError is
re-raised as ValueError("Database connection error: ..."), any other
exception is re-raised unchanged; the first row of the response is
returned, so an empty result raises the index error of
`response.data[0]`. -/
def crud_update (upd : UpdateOracle) (objId : String) (update_data : Row) :
    Except PyExc Row :=
  match upd objId update_data with
  | .error (.connectError m) =>
      .error (.valueError ("Database connection error: " ++ m))
  | .error e => .error e
  | .ok resp =>
      match resp.data with
      | [] => .error .indexError
      | r :: _ => .ok r

/-- CRUDBase.remove: issue the delete; an httpx.ConnectError is
re-raised as ValueError("Database connection error: ..."); with a
non-empty response the deleted row is returned, and with an empty
response the method returns None. -/
def crud_remove (del : DeleteOracle) (objId : String) :
    Except PyExc (Option Row) :=
  match del objId with
  | .error (.connectError m) =>
      .error (.valueError ("Database connection error: " ++ m))
  | .error e => .error e
  | .ok resp =>
      match resp.data with
      | [] => .ok none
      | r :: _ => .ok (some r)

/- ### Vector-embedding creation endpoints
(app/api/v1/endpoints/vector_embeddings.py) -/

/-- The Message entity as the endpoint uses it: its text content. -/
structure Msg where
  content : Py
deriving DecidableEq, Repr

/-- The Document entity as the endpoint uses it: its text content. -/
structure Doc where
  text_content : Py
deriving DecidableEq, Repr

/-- A failure of an endpoint: a raised HTTPException with status and
detail, or a propagated lower-level exception. -/
inductive ApiErr where
  | http (status : ℕ) (detail : String)
  | exc (e : PyExc)
deriving DecidableEq, Repr

/-- Oracle for `message_crud.get`: None when the message is absent. -/
abbrev GetMsgOracle := String → Except PyExc (Option Msg)

/-- Oracle for `document_crud.get`: None when the document is absent. -/
abbrev GetDocOracle := String → Except PyExc (Option Doc)

/-- Oracle for `vector_embedding_crud.get_by_message` /
`get_by_document`: None when no embedding row exists for the owner. -/
abbrev GetByOwnerOracle := String → Except PyExc (Option Row)

/-- POST /vector-embeddings/message/(message_id): 404 when the message
is absent; 400 when an embedding already exists for it, with no provider
call and no insert; otherwise delegate to create_for_text on the
message's content. -/
def create_for_message (getMsg : GetMsgOracle) (getByMsg : GetByOwnerOracle)
    (post : PostOracle) (ins : InsertOracle) (message_id : String) :
    Except ApiErr Row × InsTrace :=
  match getMsg message_id with
  | .error e => (.error (.exc e), ⟨[], []⟩)
  | .ok none => (.error (.http 404 "Message not found"), ⟨[], []⟩)
  | .ok (some msg) =>
      match getByMsg message_id with
      | .error e => (.error (.exc e), ⟨[], []⟩)
      | .ok (some _existing) =>
          (.error (.http 400 "Vector embedding already exists for this message"),
           ⟨[], []⟩)
      | .ok none =>
          let r := create_for_text post ins msg.content
            ⟨Py.str message_id, Py.null, Py.null⟩
          (r.1.mapError .exc, r.2)

/-- POST /vector-embeddings/document/(document_id): 404 when the
document is absent; 400 when an embedding already exists for it, with no
provider call and no insert; otherwise delegate to create_for_text on
the document's text content. -/
def create_for_document (getDoc : GetDocOracle) (getByDoc : GetByOwnerOracle)
    (post : PostOracle) (ins : InsertOracle) (document_id : String) :
    Except ApiErr Row × InsTrace :=
  match getDoc document_id with
  | .error e => (.error (.exc e), ⟨[], []⟩)
  | .ok none => (.error (.http 404 "Document not found"), ⟨[], []⟩)
  | .ok (some doc) =>
      match getByDoc document_id with
      | .error e => (.error (.exc e), ⟨[], []⟩)
      | .ok (some _existing) =>
          (.error (.http 400 "Vector embedding already exists for this document"),
           ⟨[], []⟩)
      | .ok none =>
          let r := create_for_text post ins doc.text_content
            ⟨Py.null, Py.str document_id, Py.null⟩
          (r.1.mapError .exc, r.2)

/- ### Concrete fixtures for witnesses and counterexamples -/

/-- A small embedding vector returned by the healthy test provider. -/
def wVec : Vec := [⟨1, 0⟩]

/-- A healthy embedding provider: status 200, one data element. -/
def wPost : PostOracle := fun _x => .ok ⟨200, "", [⟨wVec⟩]⟩

/-- A failing embedding provider: status 400 with a body. -/
def wPostBad : PostOracle := fun _x => .ok ⟨400, "Bad request", []⟩

/-- A two-dimensional vector, shorter than the provider dimensionality
1536. -/
def wVec2 : Vec := [⟨1, -1⟩, ⟨2, -1⟩]

/-- A provider returning the two-dimensional vector. -/
def wPost2 : PostOracle := fun _x => .ok ⟨200, "", [⟨wVec2⟩]⟩

/-- An RPC oracle that raises, as when the matching procedure is not
installed. -/
def wRpcErr : RpcOracle := fun _n _a => .error (.exc "RPC function not found")

/-- Backend row with similarity 0.95. -/
def wRow1 : Row :=
  [("id", Py.str "d1"), ("name", Py.str "doc one"), ("similarity", Py.num ⟨95, -2⟩)]

/-- Backend row with similarity 0.85. -/
def wRow2 : Row :=
  [("id", Py.str "d2"), ("name", Py.str "doc two"), ("similarity", Py.num ⟨85, -2⟩)]

/-- Backend row with similarity 0.40, below the 0.5 threshold. -/
def wRow3 : Row :=
  [("id", Py.str "d3"), ("name", Py.str "doc three"), ("similarity", Py.num ⟨40, -2⟩)]

/-- A backend returning the two rows scoring at least the threshold. -/
def wRpc2 : RpcOracle := fun _n _a => .ok ⟨[wRow1, wRow2]⟩

/-- A backend returning three rows, one of them below the threshold. -/
def wRpc3 : RpcOracle := fun _n _a => .ok ⟨[wRow1, wRow2, wRow3]⟩

/-- A backend row with no `similarity` field. -/
def wRowNoSim : Row := [("id", Py.str "d9"), ("name", Py.str "doc nine")]

/-- A backend returning only the row without a `similarity` field. -/
def wRpcNoSim : RpcOracle := fun _n _a => .ok ⟨[wRowNoSim]⟩

/-- An insert oracle echoing the inserted row. -/
def wIns : InsertOracle := fun d => .ok ⟨[d]⟩

/-- An update oracle echoing the update payload as the updated row. -/
def wUpd : UpdateOracle := fun _i d => .ok ⟨[d]⟩

/-- An update oracle returning no rows: the id matched nothing. -/
def wUpdEmpty : UpdateOracle := fun _i _d => .ok ⟨[]⟩

/-- A delete oracle returning no rows: the id matched nothing. -/
def wDelEmpty : DeleteOracle := fun _i => .ok ⟨[]⟩

/-- An update oracle failing with a connection error. -/
def wUpdConn : UpdateOracle := fun _i _d => .error (.connectError "refused")

/-- A delete oracle failing with a connection error. -/
def wDelConn : DeleteOracle := fun _i => .error (.connectError "refused")

/-- A message lookup finding nothing. -/
def wGetMsgNone : GetMsgOracle := fun _i => .ok none

/-- A message lookup finding a message with content "hello". -/
def wGetMsgSome : GetMsgOracle := fun _i => .ok (some ⟨Py.str "hello"⟩)

/-- A document lookup finding nothing. -/
def wGetDocNone : GetDocOracle := fun _i => .ok none

/-- A document lookup finding a document with text "dtext". -/
def wGetDocSome : GetDocOracle := fun _i => .ok (some ⟨Py.str "dtext"⟩)

/-- An owner-indexed embedding lookup finding nothing. -/
def wGetByNone : GetByOwnerOracle := fun _i => .ok none

/-- An owner-indexed embedding lookup finding an existing embedding
row. -/
def wGetBySome : GetByOwnerOracle := fun _i => .ok (some [("id", Py.str "e1")])

/-- A DocumentCreate payload. -/
def wDocCreate : DocumentCreate := ⟨Py.null, Py.str "n", Py.str "t", Py.null⟩

/-- A VectorEmbeddingCreate payload owned by a message. -/
def wVecCreate : VectorEmbeddingCreate := ⟨Py.str "m1", Py.null, Py.null⟩

/-- An update payload setting only the name field. -/
def wPayloadName : Row := [("name", Py.str "Updated document name")]

/-- An update payload setting only the text content. -/
def wPayloadText : Row := [("text_content", Py.str "Updated document content")]

/- ### Lemmas: the decimal codec -/

theorem natDigitsAux_eq_digits (fuel n : ℕ) (h : n ≤ fuel) :
    natDigitsAux fuel n = Nat.digits 10 n := by
  induction fuel generalizing n with
  | zero =>
      interval_cases n
      simp [natDigitsAux]
  | succ fuel ih =>
      by_cases h0 : n = 0
      · simp [natDigitsAux, h0]
      · rw [natDigitsAux, if_neg h0, Nat.digits_def' (by norm_num : 1 < 10) (Nat.pos_of_ne_zero h0),
          ih (n / 10) ?_]
        have := Nat.div_lt_self (Nat.pos_of_ne_zero h0) (by norm_num : 1 < 10)
        omega

theorem natDigits_eq_digits (n : ℕ) : natDigits n = Nat.digits 10 n :=
  natDigitsAux_eq_digits n n le_rfl

/-- The digit-accumulation step of the parser. -/
def foldStep (a : ℕ) (c : Char) : ℕ := a * 10 + digitToNat c

theorem digitChar_isDigit (d : ℕ) (h : d < 10) : (digitChar d).isDigit = true := by
  interval_cases d <;> decide

theorem digitToNat_digitChar (d : ℕ) (h : d < 10) : digitToNat (digitChar d) = d := by
  interval_cases d <;> decide

/-- The continuations the number parsers stop at: the input is exhausted
or starts with a non-digit. -/
def noLeadDigit (cs : List Char) : Prop :=
  ∀ c, cs.head? = some c → c.isDigit = false

theorem noLeadDigit_nil : noLeadDigit [] := by
  intro c h
  simp at h

theorem noLeadDigit_cons (c : Char) (cs : List Char) (h : c.isDigit = false) :
    noLeadDigit (c :: cs) := by
  intro c0 h0
  simp at h0
  rw [← h0]
  exact h

theorem parseNatAux_digits (cs rest : List Char) (acc : ℕ)
    (h : ∀ c ∈ cs, c.isDigit = true) :
    parseNatAux (cs ++ rest) acc = parseNatAux rest (cs.foldl foldStep acc) := by
  induction cs generalizing acc with
  | nil => simp
  | cons c cs ih =>
      have hc : c.isDigit = true := h c (by simp)
      have hcs : ∀ c0 ∈ cs, c0.isDigit = true := fun c0 hc0 => h c0 (by simp [hc0])
      simp only [List.cons_append, parseNatAux, hc, if_pos, List.foldl_cons]
      exact ih _ hcs

theorem parseNatAux_stop (rest : List Char) (acc : ℕ) (h : noLeadDigit rest) :
    parseNatAux rest acc = (acc, rest) := by
  cases rest with
  | nil => rfl
  | cons c cs =>
      have := h c rfl
      simp [parseNatAux, this]

theorem foldl_digits_reverse (ds : List ℕ) (h : ∀ d ∈ ds, d < 10) (a : ℕ) :
    ((ds.map digitChar).reverse).foldl foldStep a = a * 10 ^ ds.length + Nat.ofDigits 10 ds := by
  induction ds generalizing a with
  | nil => simp [Nat.ofDigits]
  | cons d ds ih =>
      have hd : d < 10 := h d (by simp)
      have hds : ∀ d0 ∈ ds, d0 < 10 := fun d0 hd0 => h d0 (by simp [hd0])
      simp only [List.map_cons, List.reverse_cons, List.foldl_append, List.foldl_cons,
        List.foldl_nil, ih hds]
      rw [Nat.ofDigits_cons]
      simp only [foldStep, digitToNat_digitChar d hd, List.length_cons]
      ring

theorem printNat_all_digits (n : ℕ) : ∀ c ∈ printNat n, c.isDigit = true := by
  intro c hc
  unfold printNat at hc
  by_cases h0 : n = 0
  · rw [if_pos h0] at hc
    simp at hc
    rw [hc]
    exact digitChar_isDigit 0 (by norm_num)
  · rw [if_neg h0] at hc
    simp only [List.mem_reverse, List.mem_map] at hc
    obtain ⟨d, hd, hdc⟩ := hc
    rw [natDigits_eq_digits] at hd
    rw [← hdc]
    exact digitChar_isDigit d (Nat.digits_lt_base (by norm_num) hd)

theorem printNat_ne_nil (n : ℕ) : printNat n ≠ [] := by
  unfold printNat
  by_cases h0 : n = 0
  · simp [h0]
  · rw [if_neg h0]
    simp only [ne_eq, List.reverse_eq_nil_iff, List.map_eq_nil_iff]
    rw [natDigits_eq_digits]
    exact Nat.digits_ne_nil_iff_ne_zero.mpr h0

theorem foldl_printNat (n : ℕ) : (printNat n).foldl foldStep 0 = n := by
  unfold printNat
  by_cases h0 : n = 0
  · rw [if_pos h0]
    simp [foldStep, digitToNat_digitChar 0 (by norm_num), h0]
  · rw [if_neg h0, natDigits_eq_digits,
      foldl_digits_reverse _ (fun d hd => Nat.digits_lt_base (by norm_num) hd) 0]
    simp [Nat.ofDigits_digits]

theorem parseNat_printNat (n : ℕ) (rest : List Char) (hrest : noLeadDigit rest) :
    parseNat (printNat n ++ rest) = some (n, rest) := by
  obtain ⟨c, cs, hc⟩ : ∃ c cs, printNat n = c :: cs := by
    cases h : printNat n with
    | nil => exact absurd h (printNat_ne_nil n)
    | cons c cs => exact ⟨c, cs, rfl⟩
  have hcd : c.isDigit = true := printNat_all_digits n c (by rw [hc]; simp)
  rw [hc, List.cons_append, parseNat, if_pos hcd, ← List.cons_append, ← hc,
    parseNatAux_digits _ _ _ (printNat_all_digits n), parseNatAux_stop _ _ hrest,
    foldl_printNat]


theorem isDigit_ne_minus (c : Char) (h : c.isDigit = true) : c ≠ Char.ofNat 45 := by
  intro he
  rw [he] at h
  exact absurd h (by decide)

theorem parseInt_printInt (i : Int) (rest : List Char) (hrest : noLeadDigit rest) :
    parseInt (printInt i ++ rest) = some (i, rest) := by
  by_cases hi : i < 0
  · rw [printInt, if_pos hi, List.cons_append, parseInt, if_pos rfl,
      parseNat_printNat _ _ hrest]
    have h2 : -((i.natAbs : ℕ) : Int) = i := by omega
    show some (-((i.natAbs : ℕ) : Int), rest) = some (i, rest)
    rw [h2]
  · obtain ⟨c, cs, hc⟩ : ∃ c cs, printNat i.natAbs = c :: cs := by
      cases h : printNat i.natAbs with
      | nil => exact absurd h (printNat_ne_nil _)
      | cons c cs => exact ⟨c, cs, rfl⟩
    have hcd : c.isDigit = true := printNat_all_digits _ c (by rw [hc]; simp)
    rw [printInt, if_neg hi, hc, List.cons_append, parseInt,
      if_neg (isDigit_ne_minus c hcd), ← List.cons_append, ← hc,
      parseNat_printNat _ _ hrest]
    have h2 : ((i.natAbs : ℕ) : Int) = i := by omega
    show some (((i.natAbs : ℕ) : Int), rest) = some (i, rest)
    rw [h2]

theorem parseFloat_printFloat (x : PyFloat) (rest : List Char) (hrest : noLeadDigit rest) :
    parseFloat (printFloat x ++ rest) = some (x, rest) := by
  have h1 : printFloat x ++ rest
      = printInt x.m ++ (Char.ofNat 101 :: (printInt x.e ++ rest)) := by
    simp [printFloat]
  have h2 := parseInt_printInt x.m (Char.ofNat 101 :: (printInt x.e ++ rest))
    (noLeadDigit_cons _ _ (by decide))
  have h3 := parseInt_printInt x.e rest hrest
  rw [h1]
  simp [parseFloat, h2, h3]

theorem printFloat_ne_nil (x : PyFloat) : printFloat x ≠ [] := by
  simp [printFloat]

theorem printItems_length (v : Vec) : v.length ≤ (printItems v).length := by
  induction v with
  | nil => simp [printItems]
  | cons x xs ih =>
      cases xs with
      | nil =>
          have h1 : 1 ≤ (printFloat x).length := by
            cases h : printFloat x with
            | nil => exact absurd h (printFloat_ne_nil x)
            | cons c cs => simp
          simpa [printItems] using h1
      | cons y ys =>
          simp only [printItems, List.length_append, List.length_cons]
          simp only [List.length_cons] at ih ⊢
          omega

theorem parseItems_printItems (v : Vec) (hv : v ≠ []) :
    ∀ fuel, v.length ≤ fuel →
      parseItems fuel (printItems v ++ [Char.ofNat 93]) = some (v, []) := by
  induction v with
  | nil => exact absurd rfl hv
  | cons x xs ih =>
      intro fuel hfuel
      cases fuel with
      | zero => simp at hfuel
      | succ f =>
          cases xs with
          | nil =>
              have hpf := parseFloat_printFloat x [Char.ofNat 93]
                (noLeadDigit_cons _ _ (by decide))
              show parseItems (f + 1) (printFloat x ++ [Char.ofNat 93]) = some ([x], [])
              simp [parseItems, hpf]
          | cons y ys =>
              have h1 : printItems (x :: y :: ys) ++ [Char.ofNat 93]
                  = printFloat x ++ (Char.ofNat 44 :: Char.ofNat 32 ::
                      (printItems (y :: ys) ++ [Char.ofNat 93])) := by
                simp [printItems]
              have hpf := parseFloat_printFloat x (Char.ofNat 44 :: Char.ofNat 32 ::
                (printItems (y :: ys) ++ [Char.ofNat 93]))
                (noLeadDigit_cons _ _ (by decide))
              have hih := ih (by simp) f (by simp at hfuel ⊢; omega)
              have hne : ¬ (Char.ofNat 44 = Char.ofNat 93) := by decide
              rw [h1]
              simp [parseItems, hpf, hne, hih]

theorem printInt_head (i : Int) :
    ∃ c cs, printInt i = c :: cs ∧ (c.isDigit = true ∨ c = Char.ofNat 45) := by
  by_cases hi : i < 0
  · exact ⟨Char.ofNat 45, printNat i.natAbs, by rw [printInt, if_pos hi], Or.inr rfl⟩
  · obtain ⟨c, cs, hc⟩ : ∃ c cs, printNat i.natAbs = c :: cs := by
      cases h : printNat i.natAbs with
      | nil => exact absurd h (printNat_ne_nil _)
      | cons c cs => exact ⟨c, cs, rfl⟩
    exact ⟨c, cs, by rw [printInt, if_neg hi, hc],
      Or.inl (printNat_all_digits _ c (by rw [hc]; simp))⟩

theorem loadsVec_dumpsVec (v : Vec) : loadsVec (dumpsVec v) = some v := by
  cases v with
  | nil => rfl
  | cons x xs =>
      obtain ⟨c, cs, hc, hcd⟩ := printInt_head x.m
      obtain ⟨t, ht⟩ : ∃ t, printItems (x :: xs) = c :: t := by
        cases xs with
        | nil =>
            exact ⟨cs ++ (Char.ofNat 101 :: printInt x.e), by
              simp [printItems, printFloat, hc]⟩
        | cons y ys =>
            exact ⟨cs ++ (Char.ofNat 101 :: printInt x.e) ++
              (Char.ofNat 44 :: Char.ofNat 32 :: printItems (y :: ys)), by
                simp [printItems, printFloat, hc]⟩
      have hcne : ¬ c = Char.ofNat 93 := by
        rcases hcd with h | h
        · exact fun he => absurd h (by rw [he]; decide)
        · rw [h]; decide
      have hpi := parseItems_printItems (x :: xs) (by simp)
        ((printItems (x :: xs) ++ [Char.ofNat 93]).length) (by
          have h := printItems_length (x :: xs)
          simp only [List.length_append, List.length_cons, List.length_nil] at h ⊢
          omega)
      show loadsVec ⟨Char.ofNat 91 :: (printItems (x :: xs) ++ [Char.ofNat 93])⟩
        = some (x :: xs)
      rw [ht] at hpi ⊢
      simp only [List.cons_append] at hpi ⊢
      simp only [List.length_cons, List.length_append, List.length_nil] at hpi
      simp [loadsVec, hcne, hpi]

/-- Claim C7: deserializing the serialized storage form returns the
original value: for every list of floats (and for None),
process_result_value after process_bind_param is the identity, with None
mapping to None in both directions and element order and float values
preserved exactly. -/
theorem claim_C7_pgvector_roundtrip (v : Option Vec) :
    process_result_value (process_bind_param v) = .ok v := by
  cases v with
  | none => rfl
  | some v =>
      rw [process_bind_param, process_result_value, loadsVec_dumpsVec]

/- ### Lemmas and claims: the embedding service -/

theorem getEmbeddingsLoop_spec (post : PostOracle) (ts : List String) (acc : List Vec) :
    getEmbeddingsLoop post ts acc = (embedManySpec post ts).map (fun vs => acc ++ vs) := by
  induction ts generalizing acc with
  | nil => simp [getEmbeddingsLoop, embedManySpec, Except.map]
  | cons t ts ih =>
      rw [getEmbeddingsLoop, embedManySpec]
      cases hq : get_embedding post (Py.str t) with
      | error e => rfl
      | ok v =>
          show getEmbeddingsLoop post ts (acc ++ [v])
            = Except.map (fun vs => acc ++ vs)
                (match embedManySpec post ts with
                 | Except.error e => Except.error e
                 | Except.ok vs => Except.ok (v :: vs))
          rw [ih]
          cases hm : embedManySpec post ts with
          | error e => rfl
          | ok vs => simp [Except.map]

/-- Claim C5: get_embeddings on a list of texts equals calling
get_embedding once per text, sequentially and in input order (the
spec-side definition embedManySpec), so the i-th output vector is the
embedding of the i-th input text. -/
theorem claim_C5_get_embeddings_eq_embedMany (post : PostOracle) (texts : List String) :
    get_embeddings post texts = embedManySpec post texts := by
  rw [get_embeddings, getEmbeddingsLoop_spec]
  cases embedManySpec post texts with
  | error e => rfl
  | ok vs => simp [Except.map]

/- ### Claims: the similarity search -/

/-- Claim C2: when the query embedding succeeds and the search RPC
raises, both search_by_vector and search_similar return the empty list
rather than propagating the exception, and the embedding-provider call
on the query text happened exactly once, before the RPC call. -/
theorem claim_C2_search_degrades_to_empty (post : PostOracle) (rpc : RpcOracle)
    (q : String) (lim : Int) (qv : Vec) (e1 e2 : PyExc)
    (hq : get_embedding post (Py.str q) = .ok qv)
    (hr1 : rpc "match_documents" ⟨dumpsVec qv, matchThreshold, lim⟩ = .error e1)
    (hr2 : rpc "match_vector_embeddings" ⟨dumpsVec qv, matchThreshold, lim⟩ = .error e2) :
    search_by_vector post rpc q lim
      = (.ok [], ⟨[Py.str q], [("match_documents", ⟨dumpsVec qv, matchThreshold, lim⟩)]⟩) ∧
    search_similar post rpc q lim
      = (.ok [], ⟨[Py.str q], [("match_vector_embeddings", ⟨dumpsVec qv, matchThreshold, lim⟩)]⟩) := by
  constructor
  · rw [search_by_vector, vectorSearch, hq]
    simp only [hr1]
  · rw [search_similar, vectorSearch, hq]
    simp only [hr2]

/-- Witness for claim C2 at a concrete provider, a concrete failing RPC
backend, and the query "q". -/
theorem claim_C2_witness :
    search_by_vector wPost wRpcErr "q" 5
      = (.ok [], ⟨[Py.str "q"], [("match_documents", ⟨dumpsVec wVec, matchThreshold, 5⟩)]⟩) ∧
    search_similar wPost wRpcErr "q" 5
      = (.ok [], ⟨[Py.str "q"], [("match_vector_embeddings", ⟨dumpsVec wVec, matchThreshold, 5⟩)]⟩) :=
  claim_C2_search_degrades_to_empty wPost wRpcErr "q" 5 wVec
    (.exc "RPC function not found") (.exc "RPC function not found") rfl rfl rfl

/-- Claim C1 is refuted on the code: the search applies no client-side
threshold filter.  With the backend returning rows scoring 0.95, 0.85
and 0.40 under match_threshold 0.5 and match_count 5, search_by_vector
returns all three pairs — including the 0.40 row, whose score is below
the threshold — not exactly the first two. -/
theorem claim_C1_counterexample :
    (search_by_vector wPost wRpc3 "q" 5).1
      = .ok [([("id", Py.str "d1"), ("name", Py.str "doc one")], Py.num ⟨95, -2⟩),
             ([("id", Py.str "d2"), ("name", Py.str "doc two")], Py.num ⟨85, -2⟩),
             ([("id", Py.str "d3"), ("name", Py.str "doc three")], Py.num ⟨40, -2⟩)]
    ∧ PyFloat.toRat ⟨40, -2⟩ < PyFloat.toRat matchThreshold := by
  constructor
  · rfl
  · show PyFloat.toRat ⟨40, -2⟩ < PyFloat.toRat ⟨5, -1⟩
    rw [PyFloat.toRat, PyFloat.toRat]
    have h2 : Int.toNat 2 = 2 := rfl
    have h1 : Int.toNat 1 = 1 := rfl
    norm_num [h1, h2]

/-- Claim C1 (amended): for every list of rows returned by the search
backend, the similarity search returns a pair for every backend row, in
the backend's order — the entity built from the row with the
`similarity` field stripped, and that row's similarity score — with the
0.5 threshold passed to the backend in the RPC arguments rather than
applied client-side; so when the backend honors the threshold and
returns only the rows scoring at least 0.5, exactly those are returned,
in order, with their scores. -/
theorem claim_C1_search_returns_all_backend_rows (post : PostOracle) (rpc : RpcOracle)
    (q : String) (lim : Int) (qv : Vec) (rows rows2 : List Row)
    (hq : get_embedding post (Py.str q) = .ok qv)
    (hr1 : rpc "match_documents" ⟨dumpsVec qv, matchThreshold, lim⟩ = .ok ⟨rows⟩)
    (hr2 : rpc "match_vector_embeddings" ⟨dumpsVec qv, matchThreshold, lim⟩ = .ok ⟨rows2⟩) :
    search_by_vector post rpc q lim
      = (.ok (rows.map matchRow),
         ⟨[Py.str q], [("match_documents", ⟨dumpsVec qv, matchThreshold, lim⟩)]⟩) ∧
    search_similar post rpc q lim
      = (.ok (rows2.map matchRow),
         ⟨[Py.str q], [("match_vector_embeddings", ⟨dumpsVec qv, matchThreshold, lim⟩)]⟩) := by
  constructor
  · rw [search_by_vector, vectorSearch, hq]
    simp only [hr1]
  · rw [search_similar, vectorSearch, hq]
    simp only [hr2]

/-- Witness for the amended claim C1: a backend honoring the threshold
returns the rows scoring 0.95 and 0.85; the search returns exactly those
two, in that order, with those scores. -/
theorem claim_C1_witness :
    search_by_vector wPost wRpc2 "q" 5
      = (.ok [([("id", Py.str "d1"), ("name", Py.str "doc one")], Py.num ⟨95, -2⟩),
              ([("id", Py.str "d2"), ("name", Py.str "doc two")], Py.num ⟨85, -2⟩)],
         ⟨[Py.str "q"], [("match_documents", ⟨dumpsVec wVec, matchThreshold, 5⟩)]⟩) ∧
    search_similar wPost wRpc2 "q" 5
      = (.ok [([("id", Py.str "d1"), ("name", Py.str "doc one")], Py.num ⟨95, -2⟩),
              ([("id", Py.str "d2"), ("name", Py.str "doc two")], Py.num ⟨85, -2⟩)],
         ⟨[Py.str "q"], [("match_vector_embeddings", ⟨dumpsVec wVec, matchThreshold, 5⟩)]⟩) :=
  claim_C1_search_returns_all_backend_rows wPost wRpc2 "q" 5 wVec
    [wRow1, wRow2] [wRow1, wRow2] rfl rfl rfl

/-- Stripping a key that is not present leaves the row unchanged. -/
theorem filter_ne_of_lookup_none (d : Row) (k : String) (h : List.lookup k d = none) :
    d.filter (fun kv => kv.1 ≠ k) = d := by
  induction d with
  | nil => rfl
  | cons kv rest ih =>
      obtain ⟨k0, v0⟩ := kv
      rw [List.lookup] at h
      cases hk : k == k0 with
      | true => simp [hk] at h
      | false =>
          simp only [hk] at h
          have hne : ¬ (k0 = k) := by
            intro he
            rw [he] at hk
            simp at hk
          rw [List.filter_cons, if_pos (by simp [hne]), ih h]

/-- Claim C10: a backend row lacking the `similarity` field does not
make the search fail: the row is returned as the constructed entity
(the full row, since there is nothing to strip) paired with the default
score 0.0, by both search_by_vector and search_similar. -/
theorem claim_C10_missing_similarity_defaults_to_zero (post : PostOracle) (rpc : RpcOracle)
    (q : String) (lim : Int) (qv : Vec) (item : Row)
    (hq : get_embedding post (Py.str q) = .ok qv)
    (hsim : List.lookup "similarity" item = none)
    (hr1 : rpc "match_documents" ⟨dumpsVec qv, matchThreshold, lim⟩ = .ok ⟨[item]⟩)
    (hr2 : rpc "match_vector_embeddings" ⟨dumpsVec qv, matchThreshold, lim⟩ = .ok ⟨[item]⟩) :
    (search_by_vector post rpc q lim).1 = .ok [(item, Py.num pyZero)] ∧
    (search_similar post rpc q lim).1 = .ok [(item, Py.num pyZero)] := by
  have hm : matchRow item = (item, Py.num pyZero) := by
    rw [matchRow, hsim, filter_ne_of_lookup_none item "similarity" hsim]
    rfl
  constructor
  · rw [search_by_vector, vectorSearch, hq]
    simp only [hr1, List.map_cons, List.map_nil, hm]
  · rw [search_similar, vectorSearch, hq]
    simp only [hr2, List.map_cons, List.map_nil, hm]

/-- Witness for claim C10 at the concrete row with no similarity
field. -/
theorem claim_C10_witness :
    (search_by_vector wPost wRpcNoSim "q" 5).1 = .ok [(wRowNoSim, Py.num pyZero)] ∧
    (search_similar wPost wRpcNoSim "q" 5).1 = .ok [(wRowNoSim, Py.num pyZero)] :=
  claim_C10_missing_similarity_defaults_to_zero wPost wRpcNoSim "q" 5 wVec wRowNoSim
    rfl rfl rfl rfl

/- ### Claims: the document update/create lifecycle -/

/-- Claim C3: update_with_vector calls the embedding provider if and
only if the update payload (the exclude_unset model dump) contains the
text_content field.  When present, the provider is called exactly once
with the new text, and on success the single store write carries the
payload with the freshly computed vector added, overwriting the stored
one; when absent, the provider is not called and the single store write
is the payload itself, so a payload without a vector key never touches
the stored vector. -/
theorem claim_C3_reembed_iff_text_content (post : PostOracle) (upd : UpdateOracle)
    (docId : String) (update_data : Row) :
    (∀ tv, List.lookup "text_content" update_data = some tv →
       (update_with_vector post upd docId update_data).2.embedCalls = [tv] ∧
       ∀ vector, get_embedding post tv = .ok vector →
         (update_with_vector post upd docId update_data).2.updates
           = [(docId, dictSet update_data "vector" (Py.vec vector))]) ∧
    (List.lookup "text_content" update_data = none →
       (update_with_vector post upd docId update_data).2.embedCalls = [] ∧
       (update_with_vector post upd docId update_data).2.updates
         = [(docId, update_data)] ∧
       (List.lookup "vector" update_data = none →
          ∀ w ∈ (update_with_vector post upd docId update_data).2.updates,
            List.lookup "vector" w.2 = none)) := by
  constructor
  · intro tv htv
    refine ⟨?_, ?_⟩
    · cases hq : get_embedding post tv with
      | error e => simp only [update_with_vector, htv, hq]
      | ok vector =>
          cases hu : upd docId (dictSet update_data "vector" (Py.vec vector)) with
          | error e => simp only [update_with_vector, htv, hq, hu]
          | ok resp =>
              cases hdata : resp.data with
              | nil => simp only [update_with_vector, htv, hq, hu, hdata]
              | cons r rs => simp only [update_with_vector, htv, hq, hu, hdata]
    · intro vector hvec
      cases hu : upd docId (dictSet update_data "vector" (Py.vec vector)) with
      | error e => simp only [update_with_vector, htv, hvec, hu]
      | ok resp =>
          cases hdata : resp.data with
          | nil => simp only [update_with_vector, htv, hvec, hu, hdata]
          | cons r rs => simp only [update_with_vector, htv, hvec, hu, hdata]
  · intro hnone
    have htr : (update_with_vector post upd docId update_data).2
        = ⟨[], [(docId, update_data)]⟩ := by
      cases hu : upd docId update_data with
      | error e => simp only [update_with_vector, hnone, hu]
      | ok resp =>
          cases hdata : resp.data with
          | nil => simp only [update_with_vector, hnone, hu, hdata]
          | cons r rs => simp only [update_with_vector, hnone, hu, hdata]
    refine ⟨?_, ?_, ?_⟩
    · rw [htr]
    · rw [htr]
    · intro hv w hw
      rw [htr] at hw
      simp at hw
      rw [hw]
      exact hv

/-- Witness for claim C3: with the name-only payload the provider is
not called; with the text_content payload it is called exactly once
with the new text and the write carries the new vector. -/
theorem claim_C3_witness :
    ((update_with_vector wPost wUpd "d1" wPayloadText).2.embedCalls
        = [Py.str "Updated document content"]
     ∧ (update_with_vector wPost wUpd "d1" wPayloadText).2.updates
        = [("d1", dictSet wPayloadText "vector" (Py.vec wVec))])
    ∧ ((update_with_vector wPost wUpd "d1" wPayloadName).2.embedCalls = []
       ∧ (update_with_vector wPost wUpd "d1" wPayloadName).2.updates
          = [("d1", wPayloadName)]) :=
  ⟨⟨((claim_C3_reembed_iff_text_content wPost wUpd "d1" wPayloadText).1
      (Py.str "Updated document content") rfl).1,
    ((claim_C3_reembed_iff_text_content wPost wUpd "d1" wPayloadText).1
      (Py.str "Updated document content") rfl).2 wVec rfl⟩,
   ⟨((claim_C3_reembed_iff_text_content wPost wUpd "d1" wPayloadName).2 rfl).1,
    ((claim_C3_reembed_iff_text_content wPost wUpd "d1" wPayloadName).2 rfl).2.1⟩⟩

/-- Claim C6: a failed embedding-provider call leaves the store
unchanged: both create_with_vector and create_for_text compute the
embedding before issuing the insert, so when the provider raises, the
error propagates, the insert list is empty, and the owning entity is
not created. -/
theorem claim_C6_no_partial_writes (post : PostOracle) (ins : InsertOracle)
    (obj_in : DocumentCreate) (text : Py) (objv : VectorEmbeddingCreate) (e1 e2 : PyExc)
    (h1 : get_embedding post obj_in.text_content = .error e1)
    (h2 : get_embedding post text = .error e2) :
    create_with_vector post ins obj_in = (.error e1, ⟨[obj_in.text_content], []⟩) ∧
    create_for_text post ins text objv = (.error e2, ⟨[text], []⟩) := by
  constructor
  · rw [create_with_vector, h1]
  · rw [create_for_text, h2]

/-- Witness for claim C6 at the provider that answers with status
400. -/
theorem claim_C6_witness :
    create_with_vector wPostBad wIns wDocCreate
      = (.error (.exc "Error getting embedding: Bad request"), ⟨[Py.str "t"], []⟩) ∧
    create_for_text wPostBad wIns (Py.str "hello") wVecCreate
      = (.error (.exc "Error getting embedding: Bad request"), ⟨[Py.str "hello"], []⟩) :=
  claim_C6_no_partial_writes wPostBad wIns wDocCreate (Py.str "hello") wVecCreate
    (.exc "Error getting embedding: Bad request")
    (.exc "Error getting embedding: Bad request") rfl rfl

/-- Claim C8 is refuted on the code: no dimensionality check exists on
the write path.  A provider returning a 2-dimensional vector (not 1536)
is accepted without rejection or flagging: create_with_vector succeeds
and the insert payload stores exactly that 2-element vector. -/
theorem claim_C8_counterexample :
    (create_with_vector wPost2 wIns wDocCreate).1
        = .ok (dictSet wDocCreate.dump "vector" (Py.vec wVec2)) ∧
    (create_with_vector wPost2 wIns wDocCreate).2.inserts
        = [dictSet wDocCreate.dump "vector" (Py.vec wVec2)] ∧
    List.lookup "vector" (dictSet wDocCreate.dump "vector" (Py.vec wVec2))
        = some (Py.vec wVec2) ∧
    wVec2.length = 2 ∧ (2 : ℕ) ≠ 1536 :=
  ⟨rfl, rfl, rfl, rfl, by decide⟩

/-- Claim C8 (amended): the write path performs no dimensionality
validation: whatever vector the provider returns, of any length, is
stored verbatim — the insert payload of create_with_vector and
create_for_text carries exactly the provider's vector, so stored vectors
have length 1536 exactly when the configured provider returns
1536-dimensional vectors, and no independent rejection or flagging
occurs. -/
theorem claim_C8_amended_no_length_check (post : PostOracle) (ins : InsertOracle)
    (obj_in : DocumentCreate) (text : Py) (objv : VectorEmbeddingCreate) (vector : Vec)
    (h1 : get_embedding post obj_in.text_content = .ok vector)
    (h2 : get_embedding post text = .ok vector) :
    (create_with_vector post ins obj_in).2.inserts
        = [dictSet obj_in.dump "vector" (Py.vec vector)] ∧
    (create_for_text post ins text objv).2.inserts
        = [dictSet objv.dump "vector" (Py.vec vector)] ∧
    List.lookup "vector" (dictSet obj_in.dump "vector" (Py.vec vector))
        = some (Py.vec vector) ∧
    List.lookup "vector" (dictSet objv.dump "vector" (Py.vec vector))
        = some (Py.vec vector) := by
  refine ⟨?_, ?_, ?_, ?_⟩
  · cases hi : ins (dictSet obj_in.dump "vector" (Py.vec vector)) with
    | error e => simp only [create_with_vector, h1, hi]
    | ok resp =>
        cases hdata : resp.data with
        | nil => simp only [create_with_vector, h1, hi, hdata]
        | cons r rs => simp only [create_with_vector, h1, hi, hdata]
  · cases hi : ins (dictSet objv.dump "vector" (Py.vec vector)) with
    | error e => simp only [create_for_text, h2, hi]
    | ok resp =>
        cases hdata : resp.data with
        | nil => simp only [create_for_text, h2, hi, hdata]
        | cons r rs => simp only [create_for_text, h2, hi, hdata]
  · rw [DocumentCreate.dump]
    rfl
  · rw [VectorEmbeddingCreate.dump]
    rfl

/-- Witness for the amended claim C8: the 2-dimensional vector is
stored verbatim by both create paths. -/
theorem claim_C8_witness :
    (create_with_vector wPost2 wIns wDocCreate).2.inserts
        = [dictSet wDocCreate.dump "vector" (Py.vec wVec2)] ∧
    (create_for_text wPost2 wIns (Py.str "hello") wVecCreate).2.inserts
        = [dictSet wVecCreate.dump "vector" (Py.vec wVec2)] ∧
    List.lookup "vector" (dictSet wDocCreate.dump "vector" (Py.vec wVec2))
        = some (Py.vec wVec2) ∧
    List.lookup "vector" (dictSet wVecCreate.dump "vector" (Py.vec wVec2))
        = some (Py.vec wVec2) :=
  claim_C8_amended_no_length_check wPost2 wIns wDocCreate (Py.str "hello")
    wVecCreate wVec2 rfl rfl

/- ### Claims: the embedding-creation endpoints -/

/-- Claim C4: the embedding-creation endpoints check existence then
uniqueness: a missing owner yields the 404 HTTPException; an existing
embedding for the owner yields the 400 HTTPException with no
embedding-provider call and no insert; and only when both checks pass
does the endpoint run create_for_text on the owner's text, which
computes the embedding and then inserts it. -/
theorem claim_C4_duplicate_guard (getMsg : GetMsgOracle) (getByMsg : GetByOwnerOracle)
    (getDoc : GetDocOracle) (getByDoc : GetByOwnerOracle)
    (post : PostOracle) (ins : InsertOracle) (mid did : String) :
    (getMsg mid = .ok none →
       create_for_message getMsg getByMsg post ins mid
         = (.error (.http 404 "Message not found"), ⟨[], []⟩)) ∧
    (∀ m ex, getMsg mid = .ok (some m) → getByMsg mid = .ok (some ex) →
       create_for_message getMsg getByMsg post ins mid
         = (.error (.http 400 "Vector embedding already exists for this message"),
            ⟨[], []⟩)) ∧
    (∀ m, getMsg mid = .ok (some m) → getByMsg mid = .ok none →
       create_for_message getMsg getByMsg post ins mid
         = ((create_for_text post ins m.content ⟨Py.str mid, Py.null, Py.null⟩).1.mapError .exc,
            (create_for_text post ins m.content ⟨Py.str mid, Py.null, Py.null⟩).2)) ∧
    (getDoc did = .ok none →
       create_for_document getDoc getByDoc post ins did
         = (.error (.http 404 "Document not found"), ⟨[], []⟩)) ∧
    (∀ d ex, getDoc did = .ok (some d) → getByDoc did = .ok (some ex) →
       create_for_document getDoc getByDoc post ins did
         = (.error (.http 400 "Vector embedding already exists for this document"),
            ⟨[], []⟩)) ∧
    (∀ d, getDoc did = .ok (some d) → getByDoc did = .ok none →
       create_for_document getDoc getByDoc post ins did
         = ((create_for_text post ins d.text_content ⟨Py.null, Py.str did, Py.null⟩).1.mapError .exc,
            (create_for_text post ins d.text_content ⟨Py.null, Py.str did, Py.null⟩).2)) := by
  refine ⟨?_, ?_, ?_, ?_, ?_, ?_⟩
  · intro h404
    simp only [create_for_message, h404]
  · intro m ex hm hex
    simp only [create_for_message, hm, hex]
  · intro m hm hnone
    simp only [create_for_message, hm, hnone]
  · intro h404
    simp only [create_for_document, h404]
  · intro d ex hd hex
    simp only [create_for_document, hd, hex]
  · intro d hd hnone
    simp only [create_for_document, hd, hnone]

/-- Witness for claim C4: concrete lookups exercising the 404, the
duplicate-400 (with no provider call and no insert), and the passing
path (provider called on the owner text, row inserted). -/
theorem claim_C4_witness :
    create_for_message wGetMsgNone wGetByNone wPost wIns "m1"
      = (.error (.http 404 "Message not found"), ⟨[], []⟩) ∧
    create_for_message wGetMsgSome wGetBySome wPost wIns "m1"
      = (.error (.http 400 "Vector embedding already exists for this message"), ⟨[], []⟩) ∧
    create_for_message wGetMsgSome wGetByNone wPost wIns "m1"
      = ((create_for_text wPost wIns (Py.str "hello") ⟨Py.str "m1", Py.null, Py.null⟩).1.mapError .exc,
         (create_for_text wPost wIns (Py.str "hello") ⟨Py.str "m1", Py.null, Py.null⟩).2) ∧
    create_for_document wGetDocNone wGetByNone wPost wIns "d1"
      = (.error (.http 404 "Document not found"), ⟨[], []⟩) ∧
    create_for_document wGetDocSome wGetBySome wPost wIns "d1"
      = (.error (.http 400 "Vector embedding already exists for this document"), ⟨[], []⟩) ∧
    create_for_document wGetDocSome wGetByNone wPost wIns "d1"
      = ((create_for_text wPost wIns (Py.str "dtext") ⟨Py.null, Py.str "d1", Py.null⟩).1.mapError .exc,
         (create_for_text wPost wIns (Py.str "dtext") ⟨Py.null, Py.str "d1", Py.null⟩).2) :=
  ⟨(claim_C4_duplicate_guard wGetMsgNone wGetByNone wGetDocNone wGetByNone wPost wIns "m1" "d1").1 rfl,
   (claim_C4_duplicate_guard wGetMsgSome wGetBySome wGetDocNone wGetByNone wPost wIns "m1" "d1").2.1
     ⟨Py.str "hello"⟩ [("id", Py.str "e1")] rfl rfl,
   (claim_C4_duplicate_guard wGetMsgSome wGetByNone wGetDocNone wGetByNone wPost wIns "m1" "d1").2.2.1
     ⟨Py.str "hello"⟩ rfl rfl,
   (claim_C4_duplicate_guard wGetMsgNone wGetByNone wGetDocNone wGetByNone wPost wIns "m1" "d1").2.2.2.1 rfl,
   (claim_C4_duplicate_guard wGetMsgNone wGetByNone wGetDocSome wGetBySome wPost wIns "m1" "d1").2.2.2.2.1
     ⟨Py.str "dtext"⟩ [("id", Py.str "e1")] rfl rfl,
   (claim_C4_duplicate_guard wGetMsgNone wGetByNone wGetDocSome wGetByNone wPost wIns "m1" "d1").2.2.2.2.2
     ⟨Py.str "dtext"⟩ rfl rfl⟩

/- ### Claims: generic update/remove error behaviour -/

/-- Claim C9 is refuted on the code: deleting a nonexistent id does not
fail at all — CRUDBase.remove returns None when the delete matched no
rows, rather than raising a NotFound error. -/
theorem claim_C9_counterexample :
    crud_remove wDelEmpty "i1" = .ok none := rfl

/-- Claim C9 (amended): on an empty result for a nonexistent id,
crud_update fails — but with the generic index error of
`response.data[0]`, not a dedicated NotFound — while crud_remove does
not fail and returns None; connectivity failures are reported
distinctly, as ValueError("Database connection error: ...") in both
operations. -/
theorem claim_C9_amended_empty_result_behaviour :
    (∀ (upd : UpdateOracle) (objId : String) (payload : Row),
       upd objId payload = .ok ⟨[]⟩ →
       crud_update upd objId payload = .error .indexError) ∧
    (∀ (del : DeleteOracle) (objId : String),
       del objId = .ok ⟨[]⟩ →
       crud_remove del objId = .ok none) ∧
    (∀ (upd : UpdateOracle) (objId : String) (payload : Row) (m : String),
       upd objId payload = .error (.connectError m) →
       crud_update upd objId payload
         = .error (.valueError ("Database connection error: " ++ m))) ∧
    (∀ (del : DeleteOracle) (objId : String) (m : String),
       del objId = .error (.connectError m) →
       crud_remove del objId
         = .error (.valueError ("Database connection error: " ++ m))) := by
  refine ⟨?_, ?_, ?_, ?_⟩
  · intro upd objId payload h
    simp only [crud_update, h]
  · intro del objId h
    simp only [crud_remove, h]
  · intro upd objId payload m h
    simp only [crud_update, h]
  · intro del objId m h
    simp only [crud_remove, h]

/-- Witness for the amended claim C9 at concrete store oracles. -/
theorem claim_C9_witness :
    crud_update wUpdEmpty "i1" wPayloadName = .error .indexError ∧
    crud_remove wDelEmpty "i1" = .ok none ∧
    crud_update wUpdConn "i1" wPayloadName
      = .error (.valueError ("Database connection error: " ++ "refused")) ∧
    crud_remove wDelConn "i1"
      = .error (.valueError ("Database connection error: " ++ "refused")) :=
  ⟨claim_C9_amended_empty_result_behaviour.1 wUpdEmpty "i1" wPayloadName rfl,
   claim_C9_amended_empty_result_behaviour.2.1 wDelEmpty "i1" rfl,
   claim_C9_amended_empty_result_behaviour.2.2.1 wUpdConn "i1" wPayloadName "refused" rfl,
   claim_C9_amended_empty_result_behaviour.2.2.2 wDelConn "i1" "refused" rfl⟩
